import Mathlib

/-!
Shallow embedding of the EOS combination engine of `eos.cpp` / `eos.h`
(padiac/eos): the neutron-star high-density extension (`fit_fun`, `ed_fit`,
`mu_fit`, `dmudn_fit`, `cs2_fit`, `new_ns_eos`), the virial gas solver branch
logic (`free_energy_density_virial`), the top-level combiner
(`free_energy_density`) and the model validator (`select_internal`).

Floating-point doubles are modelled as real numbers.  External black boxes
(the o2scl Skyrme functional, the multi-dimensional root solvers, the GSL
hypergeometric function and numerical-derivative routines, and the data
tables) are modelled as explicit function parameters collected in oracle
structures; everything written out in `eos.cpp` itself is transcribed
directly.
-/

namespace Eos

noncomputable section

/-- The conversion constant hbar*c in MeV fm (`o2scl_const::hc_mev_fm`). -/
def hc_mev_fm : ℝ := 197.327

/-- Thermodynamic aggregate (`o2scl::thermo`): energy density, pressure,
entropy density. -/
structure Thermo where
  ed : ℝ
  pr : ℝ
  en : ℝ

/-- The fields of `o2scl::fermion` that the combiner reads or writes across
calls: number density, rest mass, chemical potential. -/
structure Fermion where
  n : ℝ
  m : ℝ
  mu : ℝ

/-- `eos::fit_fun`: the fit function for the neutron-star energy per baryon
(in MeV) as a function of baryon density, in the old parametrization
(half-integer powers of nb) or the new one (integer powers). -/
def fit_fun (old_ns_fit : Bool) (parms : Fin 5 → ℝ) (nb : ℝ) : ℝ :=
  if old_ns_fit then
    Real.sqrt nb * parms 0 + nb * parms 1 +
      nb * Real.sqrt nb * parms 2 + nb * nb * parms 3 +
      nb * nb * nb * parms 4
  else
    nb * parms 0 + nb * nb * parms 1 + nb * nb * nb * parms 2 +
      nb * nb * nb * nb * parms 3 + nb * nb * nb * nb * nb * parms 4

/-- `eos::ed_fit`: fitted energy density (fm^-4) at baryon density nb. -/
def ed_fit (old_ns_fit : Bool) (parms : Fin 5 → ℝ) (nb : ℝ) : ℝ :=
  fit_fun old_ns_fit parms nb * nb / hc_mev_fm

/-- `eos::mu_fit`: fitted chemical potential (fm^-1), the derivative of
`ed_fit` with respect to nb. -/
def mu_fit (old_ns_fit : Bool) (parms : Fin 5 → ℝ) (nb : ℝ) : ℝ :=
  if old_ns_fit then
    (1.5 * Real.sqrt nb * parms 0 + 2.0 * nb * parms 1 +
      2.5 * nb * Real.sqrt nb * parms 2 + 3.0 * nb * nb * parms 3 +
      4.0 * nb * nb * nb * parms 4) / hc_mev_fm
  else
    (2.0 * nb * parms 0 + 3.0 * nb * nb * parms 1 +
      4.0 * nb * nb * nb * parms 2 +
      5.0 * nb * nb * nb * nb * parms 3 +
      6.0 * nb * nb * nb * nb * nb * parms 4) / hc_mev_fm

/-- `eos::dmudn_fit`: fitted inverse susceptibility (fm^2). -/
def dmudn_fit (old_ns_fit : Bool) (parms : Fin 5 → ℝ) (nb : ℝ) : ℝ :=
  if old_ns_fit then
    (0.75 / Real.sqrt nb * parms 0 + 2.0 * parms 1 +
      3.75 * Real.sqrt nb * parms 2 + 6.0 * nb * parms 3 +
      12.0 * nb * nb * parms 4) / hc_mev_fm
  else
    (2.0 * parms 0 + 6.0 * nb * parms 1 + 12.0 * nb * nb * parms 2 +
      20.0 * nb * nb * nb * parms 3 + 30.0 * nb * nb * nb * nb * parms 4) /
      hc_mev_fm

/-- `eos::cs2_fit`: fitted squared sound speed. -/
def cs2_fit (old_ns_fit : Bool) (parms : Fin 5 → ℝ) (nb : ℝ) : ℝ :=
  dmudn_fit old_ns_fit parms nb * nb /
    (mu_fit old_ns_fit parms nb + 939.565 / hc_mev_fm)

/-- Result record of `eos::new_ns_eos` (the two reference outputs). -/
structure NsOut where
  e_ns : ℝ
  densdnn : ℝ

/-- `eos::solve_coeff_big`: residuals of the two-equation system solved for
(a1, a2) on the increasing-sound-speed branch. -/
def solve_coeff_big (x : ℝ × ℝ) (ns_nb_max_l cs_ns_2 cs_ns_last : ℝ) : ℝ × ℝ :=
  let a1l := x.1
  let a2l := x.2
  (1.0 - a1l + (a1l * a2l * ns_nb_max_l ^ a1l) /
      (1.0 + a2l * ns_nb_max_l ^ a1l) - cs_ns_last,
   1.0 - a1l + (a1l * a2l * (2.0:ℝ) ^ a1l) / (1.0 + a2l * (2.0:ℝ) ^ a1l) -
      cs_ns_2)

/-- `eos::solve_coeff_small`: residuals of the two-equation system solved for
(a1, a2) on the decreasing-sound-speed branch. -/
def solve_coeff_small (x : ℝ × ℝ) (ns_nb_max_l cs_ns_2 cs_ns_last : ℝ) :
    ℝ × ℝ :=
  let a1l := x.1
  let a2l := x.2
  ((a1l - a1l * a2l * ns_nb_max_l ^ a1l /
      (1.0 + a2l * ns_nb_max_l ^ a1l)) - cs_ns_last,
   (a1l - a1l * a2l * (2.0:ℝ) ^ a1l / (1.0 + a2l * (2.0:ℝ) ^ a1l)) - cs_ns_2)

/-- `eos::new_ns_eos`: the causality-corrected neutron-star EOS.  Below the
cutoff it returns the polynomial fit; at or above the cutoff it selects one of
three closed-form causal continuations by comparing the sound-speed anchor
`phi` with the fitted sound speed at the cutoff.  The multidimensional root
solver `mroot_hybrids` is external, so the solved pairs (a1, a2) for the two
branches enter as the parameters `solveBig` and `solveSmall`; the GSL
hypergeometric function `gsl_sf_hyperg_2F1` is external and enters as the
function parameter `hyperg`.  `nm` is the neutron rest mass `n.m`. -/
def new_ns_eos (hyperg : ℝ → ℝ → ℝ → ℝ → ℝ) (solveBig solveSmall : ℝ × ℝ)
    (old_ns_fit : Bool) (parms : Fin 5 → ℝ) (ns_nb_max phi nm nb : ℝ) :
    NsOut :=
  let e_ns_last := ed_fit old_ns_fit parms ns_nb_max
  let p_ns_last := mu_fit old_ns_fit parms ns_nb_max * ns_nb_max - e_ns_last
  if nb < ns_nb_max - 1.0e-6 then
    -- In the region where the neutron star EOS is causal, use the fit
    { e_ns := ed_fit old_ns_fit parms nb,
      densdnn := mu_fit old_ns_fit parms nb }
  else
    let cs_ns_last := cs2_fit old_ns_fit parms ns_nb_max
    let cs_ns_2 := phi
    if cs_ns_2 > cs_ns_last then
      -- Speed of sound increasing at high densities
      let a1l := solveBig.1
      let a2l := solveBig.2
      let c1l := (e_ns_last + nm * ns_nb_max + p_ns_last) /
        ((ns_nb_max * ns_nb_max) * (a2l + ns_nb_max ^ (-a1l)))
      let c2l := 0.5 * (e_ns_last + nm * ns_nb_max - p_ns_last +
        a1l * (e_ns_last + nm * ns_nb_max + p_ns_last) /
          ((a1l - 2.0) * (1.0 + a2l * ns_nb_max ^ a1l)))
      { e_ns := -nm * nb +
          (a2l * nb * nb / 2.0 + nb ^ (2 - a1l) / (2 - a1l)) * c1l + c2l,
        densdnn := -nm + c1l * (a2l * nb + nb ^ (1 - a1l)) }
    else if cs_ns_2 < cs_ns_last then
      -- Speed of sound decreasing at high densities
      let a1l := solveSmall.1
      let a2l := solveSmall.2
      let hyperg1 := hyperg 1.0 1.0 (1.0 - 1.0 / a1l)
        (1.0 / a2l * nb ^ (-a1l) / (1.0 / a2l * nb ^ (-a1l) + 1.0))
      let hyperg_max := hyperg 1.0 1.0 (1.0 - 1.0 / a1l)
        (1.0 / a2l * ns_nb_max ^ (-a1l) /
          (1.0 / a2l * ns_nb_max ^ (-a1l) + 1.0))
      -- Pfaff transformation of the hypergeometric values
      let hyperg_new := hyperg1 * (1.0 / (1.0 + 1.0 / a2l * nb ^ (-a1l)))
      let hyperg_max_new := hyperg_max *
        (1.0 / (1.0 + 1.0 / a2l * ns_nb_max ^ (-a1l)))
      let c1l := ns_nb_max ^ (-a1l - 1) * (a2l * ns_nb_max ^ a1l + 1.0) *
        (e_ns_last + nm * ns_nb_max + p_ns_last)
      let c2l := ns_nb_max ^ (-a1l) *
        (a2l * ns_nb_max ^ a1l * (e_ns_last + nm * ns_nb_max) -
          (a2l * ns_nb_max ^ a1l + 1.0) * hyperg_max_new *
            (e_ns_last + nm * ns_nb_max + p_ns_last)) / a2l
      { e_ns := (c1l * nb * hyperg_new) / a2l + c2l - nm * nb,
        densdnn := -(a2l * nm * nb ^ a1l - c1l * nb ^ a1l + nm) /
          (a2l * nb ^ a1l + 1.0) }
    else
      -- Speed of sound independent of density at high densities
      { e_ns := -nm * nb + (e_ns_last + nm * ns_nb_max + p_ns_last) /
          (1.0 + cs_ns_last) * (nb / ns_nb_max) ^ (cs_ns_last + 1) +
          (cs_ns_last * (e_ns_last + nm * ns_nb_max) - p_ns_last) /
            (1.0 + cs_ns_last),
        densdnn := -nm + (e_ns_last + nm * ns_nb_max + p_ns_last) *
          (nb / ns_nb_max) ^ cs_ns_last / ns_nb_max }

/-- `eos_crust_virial_v2::bn_func`: parametrized form of the neutron-neutron
virial coefficient as a function of temperature (MeV). -/
def bn_func (par : Fin 10 → ℝ) (T : ℝ) : ℝ :=
  par 0 + par 1 * T + par 2 * T * T + par 3 * T * T * T +
    par 4 * Real.exp (-par 5 * (T - par 6) ^ (2:ℝ)) +
    par 7 * Real.exp (-par 8 * (T - par 9))

/-- `eos_crust_virial_v2::bpn_func`: parametrized form of the neutron-proton
virial coefficient. -/
def bpn_func (par : Fin 6 → ℝ) (T : ℝ) : ℝ :=
  par 0 * Real.exp (-par 1 * (T + par 2) * (T + par 2)) +
    par 3 * Real.exp (-par 4 * (T + par 5))

/-- `eos_crust_virial_v2::bn_f`. -/
def bn_f (bn_params : Fin 10 → ℝ) (T : ℝ) : ℝ := bn_func bn_params T

/-- `eos_crust_virial_v2::bpn_f`. -/
def bpn_f (bpn_params : Fin 6 → ℝ) (T : ℝ) : ℝ := bpn_func bpn_params T

/-- `eos_crust_virial_v2::dbndT_f`: temperature derivative of `bn_f`. -/
def dbndT_f (par : Fin 10 → ℝ) (T : ℝ) : ℝ :=
  par 1 + 2.0 * par 2 * T + 3.0 * par 3 * T * T -
    2.0 * par 4 * par 5 * (T - par 6) *
      Real.exp (-par 5 * (T - par 6) ^ (2:ℝ)) -
    par 7 * par 8 * Real.exp (-par 8 * (T - par 9))

/-- `eos_crust_virial_v2::dbpndT_f`: temperature derivative of `bpn_f`. -/
def dbpndT_f (par : Fin 6 → ℝ) (T : ℝ) : ℝ :=
  -par 0 * par 1 * 2.0 * (par 2 + T) *
    Real.exp (-par 1 * (T + par 2) * (T + par 2)) -
    par 3 * par 4 * Real.exp (-par 4 * (T + par 5))

/-- The coupled fugacity solves of the class `virial_solver` (declared in
`virial_solver.h`, which is not part of the three source files): the
two-equation nonlinear fugacity solve and the three small linear solves for
the density and temperature derivatives of the virial chemical potentials.
They are modelled as unknown deterministic functions of exactly the data the
source passes to the solver object (`acl.nn`, `acl.pn`, `acl.T`, `acl.b_n`,
`acl.b_pn`, `acl.lambda`, the solved chemical potentials, and for `mfn41`
also `dbndT`, `dbpndT`, `dlambdadT`). -/
structure VirialSolverOracle where
  solve_fugacity : ℝ → ℝ → ℝ → ℝ → ℝ → ℝ → ℝ × ℝ
  mfn21 : ℝ → ℝ → ℝ → ℝ → ℝ → ℝ → ℝ → ℝ → ℝ × ℝ
  mfn31 : ℝ → ℝ → ℝ → ℝ → ℝ → ℝ → ℝ → ℝ → ℝ × ℝ
  mfn41 : ℝ → ℝ → ℝ → ℝ → ℝ → ℝ → ℝ → ℝ → ℝ → ℝ → ℝ → ℝ × ℝ

/-- The thermal wavelength computed at the top of
`eos::free_energy_density_virial`: lambda = sqrt(4 pi / (n.m + p.m) / T). -/
def lambda_virial (nmass pmass T : ℝ) : ℝ :=
  Real.sqrt (4.0 * Real.pi / (nmass + pmass) / T)

/-- All outputs of `eos::free_energy_density_virial`: the returned free
energy, the chemical potentials written into `n.mu` and `p.mu`, the thermo
outputs, and the six derivative reference outputs. -/
structure VirialResult where
  f_vir : ℝ
  mun : ℝ
  mup : ℝ
  th : Thermo
  dmundnn : ℝ
  dmundpn : ℝ
  dmupdnn : ℝ
  dmupdpn : ℝ
  dmundT : ℝ
  dmupdT : ℝ

/-- `eos::free_energy_density_virial`: the virial gas solver.  When both
nn lambda^3 and pn lambda^3 are at most 1e-5 it uses the closed-form
classical-gas branch; otherwise it delegates to the coupled fugacity solves
of the `virial_solver` oracle.  The regime test is repeated verbatim before
each solve in the source; since `lambda` does not change between the tests,
they are all equal to the single proposition bound here. -/
def free_energy_density_virial (vs : VirialSolverOracle)
    (bn_params : Fin 10 → ℝ) (bpn_params : Fin 6 → ℝ)
    (nn pn nmass pmass T : ℝ) : VirialResult :=
  let T_MeV := T * hc_mev_fm
  let b_n := bn_f bn_params T_MeV
  let dbndT := dbndT_f bn_params T_MeV * hc_mev_fm
  let b_pn := bpn_f bpn_params T_MeV
  let dbpndT := dbpndT_f bpn_params T_MeV * hc_mev_fm
  let lambda := lambda_virial nmass pmass T
  let dlambdadT := -Real.sqrt (Real.pi / (nmass + pmass)) /
    Real.sqrt T ^ (3:ℝ)
  let cond := nn * lambda ^ (3:ℝ) > 1.0e-5 ∨ pn * lambda ^ (3:ℝ) > 1.0e-5
  let mu_pair :=
    if cond then vs.solve_fugacity nn pn T b_n b_pn lambda
    else (Real.log (nn * lambda ^ (3:ℝ) / 2.0) * T,
          Real.log (pn * lambda ^ (3:ℝ) / 2.0) * T)
  let mun := mu_pair.1
  let mup := mu_pair.2
  let zn := Real.exp (mun / T)
  let zp := Real.exp (mup / T)
  let pr :=
    if cond then
      2.0 * T / lambda ^ (3:ℝ) *
        (zn + zp + (zn * zn + zp * zp) * b_n + 2.0 * zp * zn * b_pn)
    else 2.0 * T / lambda ^ (3:ℝ) * (zn + zp)
  let f_vir := mun * nn + mup * pn - pr
  let en :=
    if cond then
      5.0 * pr / 2.0 / T - nn * Real.log zn - pn * Real.log zp +
        2.0 * T / lambda ^ (3:ℝ) *
          ((zn * zn + zp * zp) * dbndT + 2.0 * zp * zn * dbpndT)
    else 5.0 * pr / 2.0 / T - nn * Real.log zn - pn * Real.log zp
  let ed := f_vir + T * en
  let d1 :=
    if cond then vs.mfn21 nn pn T b_n b_pn lambda mun mup
    else (T * lambda ^ (3:ℝ) / 2.0 / zn, 0.0)
  let d2 :=
    if cond then vs.mfn31 nn pn T b_n b_pn lambda mun mup
    else (0.0, T * lambda ^ (3:ℝ) / 2.0 / zp)
  let d3 :=
    if cond then vs.mfn41 nn pn T b_n b_pn lambda mun mup dbndT dbpndT
      dlambdadT
    else (mun / T, mup / T)
  { f_vir := f_vir, mun := mun, mup := mup,
    th := { ed := ed, pr := pr, en := en },
    dmundnn := d1.1, dmupdnn := d1.2,
    dmundpn := d2.1, dmupdpn := d2.2,
    dmundT := d3.1, dmupdT := d3.2 }

/-- A concrete instance of the fugacity-solver oracle, used for witnesses
and counterexamples that only exercise the closed-form dilute branch. -/
def zeroVS : VirialSolverOracle where
  solve_fugacity := fun _ _ _ _ _ _ => (0, 0)
  mfn21 := fun _ _ _ _ _ _ _ _ => (0, 0)
  mfn31 := fun _ _ _ _ _ _ _ _ => (0, 0)
  mfn41 := fun _ _ _ _ _ _ _ _ _ _ _ => (0, 0)

/-- The outputs of one evaluation of the o2scl Skyrme functional
(`eos_had_skyrme::calc_e` / `calc_temp_e`, an external collaborator): the
thermo fields and the chemical potentials it writes. -/
structure SkOut where
  ed : ℝ
  en : ℝ
  mun : ℝ
  mup : ℝ

/-- The external collaborators used by `eos::free_energy_density`, modelled
as deterministic functions of exactly the inputs the source hands them:
the Skyrme functional `sk` at T = 0 (a function of the two densities), the
chiral-corrected Skyrme functional `sk_chiral` at finite T and at T = 0, the
virial fugacity solver, the GSL hypergeometric function, and the two (a1, a2)
pairs produced by the `mroot_hybrids` solves inside `new_ns_eos` (their
inputs ns_nb_max, phi and cs2_fit(ns_nb_max) are fixed by the selected
model, so for a fixed model they are constants). -/
structure EosOracles where
  calc_e : ℝ → ℝ → SkOut
  chiral_calc_temp_e : ℝ → ℝ → ℝ → SkOut
  chiral_calc_e : ℝ → ℝ → SkOut
  vs : VirialSolverOracle
  hyperg : ℝ → ℝ → ℝ → ℝ → ℝ
  ns_solve_big : ℝ × ℝ
  ns_solve_small : ℝ × ℝ

/-- The mutable fields of the `eos` object that `free_energy_density` and
`select_internal` read or write: the model-selection flag and model
parameters, plus the scratch outputs (`f_virial`, `s_virial`, `g_virial`,
`f_deg`, `dgvirialdT`) that `free_energy_density` stores on the object. -/
structure EosState where
  model_selected : Bool
  select_cs2_test : Bool
  a_virial : ℝ
  b_virial : ℝ
  qmc_alpha : ℝ
  qmc_beta : ℝ
  qmc_a : ℝ
  qmc_b : ℝ
  qmc_n0 : ℝ
  old_ns_fit : Bool
  ns_fit_parms : Fin 5 → ℝ
  ns_nb_max : ℝ
  phi : ℝ
  i_ns : ℤ
  i_skyrme : ℤ
  eos_S : ℝ
  eos_L : ℝ
  eos_EoA : ℝ
  eos_K : ℝ
  eos_n0 : ℝ
  bn_params : Fin 10 → ℝ
  bpn_params : Fin 6 → ℝ
  f_virial : ℝ
  s_virial : ℝ
  g_virial : ℝ
  f_deg : ℝ
  dgvirialdT : ℝ

/-- `eos::energy_density_qmc`: closed-form QMC neutron-matter energy density
(fm^-4). -/
def energy_density_qmc (st : EosState) (nn pn : ℝ) : ℝ :=
  (st.qmc_a * ((nn + pn) / st.qmc_n0) ^ st.qmc_alpha +
    st.qmc_b * ((nn + pn) / st.qmc_n0) ^ st.qmc_beta) * (nn + pn) /
    hc_mev_fm

/-- All outputs of a successful `eos::free_energy_density` call: the returned
free energy density, the fermion objects as left on return (densities
restored, chemical potentials overwritten), the thermo outputs, and the
updated object state. -/
structure FedResult where
  f_total : ℝ
  n : Fermion
  p : Fermion
  th : Thermo
  st : EosState

/-- The body of `eos::free_energy_density` after the model-selection guard
(lines 941-1174 of eos.cpp), transcribed step by step.  The unused local
variables of the source (`P_virial`, `P_skyrme_eqdenT0`, `T_MeV`,
`mu_p_neut_T`, `mu_p_neut_T0`, the verbose printing and the `test_ns_cs2`
debug table) are omitted; every output-relevant computation is kept.  The
source temporarily overwrites `n.n` and `p.n` with (nn+pn)/2 before the
Skyrme calls and restores them before the final outputs, which here appears
as the returned fermions keeping the entry densities `nn`, `pn`. -/
def fed_core (oc : EosOracles) (st : EosState) (n p : Fermion) (T : ℝ) :
    FedResult :=
  let nn := n.n
  let pn := p.n
  let nb := nn + pn
  let ye := pn / nb
  let n0 : ℝ := 0.16
  -- Compute the virial EOS
  let vir := free_energy_density_virial oc.vs st.bn_params st.bpn_params
    nn pn n.m p.m T
  let f_virial := vir.f_vir
  let s_virial := vir.th.en
  let dmundnn := vir.dmundnn
  let dmundpn := vir.dmundpn
  let dmupdnn := vir.dmupdnn
  let dmupdpn := vir.dmupdpn
  let dmundT := vir.dmundT
  let dmupdT := vir.dmupdT
  let dfvirialdT := -vir.th.en
  let mu_n_virial := vir.mun
  let mu_p_virial := vir.mup
  let zn := Real.exp (mu_n_virial / T)
  let zp := Real.exp (mu_p_virial / T)
  let g_virial := 1.0 / (st.a_virial * zn * zn + st.a_virial * zp * zp +
    st.b_virial * zn * zp + 1.0)
  -- Compute the Skyrme EOS in nuclear matter at T=0 (both densities (nn+pn)/2)
  let sk0 := oc.calc_e ((nn + pn) / 2.0) ((nn + pn) / 2.0)
  let mu_n_skyrme_eqdenT0 := sk0.mun
  let mu_p_skyrme_eqdenT0 := sk0.mup
  let f_skyrme_eqdenT0 := sk0.ed
  -- Chiral-corrected Skyrme at equal densities, at T and at T=0
  let ch1 := oc.chiral_calc_temp_e ((nn + pn) / 2.0) ((nn + pn) / 2.0) T
  let f_skyrme_eqden_T := ch1.ed - T * ch1.en
  let mu_p_eqden_T := ch1.mup
  let mu_n_eqden_T := ch1.mun
  let s_eqden_T := ch1.en
  let ch2 := oc.chiral_calc_e ((nn + pn) / 2.0) ((nn + pn) / 2.0)
  let f_skyrme_eqden_T0 := ch2.ed
  let mu_p_eqden_T0 := ch2.mup
  let mu_n_eqden_T0 := ch2.mun
  -- Chiral-corrected Skyrme at pure-neutron density, at T and at T=0
  let ch3 := oc.chiral_calc_temp_e (nn + pn) 0.0 T
  let f_skyrme_neut_T := ch3.ed - T * ch3.en
  let mu_n_neut_T := ch3.mun
  let s_neut_T := ch3.en
  let ch4 := oc.chiral_calc_e (nn + pn) 0.0
  let f_skyrme_neut_T0 := ch4.ed
  let mu_n_neut_T0 := ch4.mun
  -- QMC EOS and neutron star EOS
  let e_qmc := energy_density_qmc st nn pn
  let ns := new_ns_eos oc.hyperg oc.ns_solve_big oc.ns_solve_small
    st.old_ns_fit st.ns_fit_parms st.ns_nb_max st.phi n.m nb
  let e_ns := ns.e_ns
  let densdnn := ns.densdnn
  -- Combine all the results to get the full free energy density
  let gamma : ℝ := 20.0
  let h := 1.0 / (1.0 + Real.exp (gamma * (nn + pn - n0 * 1.5)))
  let e_combine := e_qmc * h + e_ns * (1.0 - h)
  let e_sym := e_combine - f_skyrme_eqdenT0
  let dyednn := -pn / nb / nb
  let dyedpn := nn / nb / nb
  let delta2 := (1.0 - 2.0 * ye) * (1.0 - 2.0 * ye)
  let ddelta2dnn := 2.0 * (1.0 - 2.0 * ye) * (-2.0 * dyednn)
  let ddelta2dpn := 2.0 * (1.0 - 2.0 * ye) * (-2.0 * dyedpn)
  let f_deg := f_skyrme_eqdenT0 + delta2 * e_sym +
    delta2 * (f_skyrme_neut_T - f_skyrme_neut_T0) +
    (1.0 - delta2) * (f_skyrme_eqden_T - f_skyrme_eqden_T0)
  let f_total := f_virial * g_virial + f_deg * (1.0 - g_virial)
  -- Compute derivatives for chemical potentials
  let dgvirialdnn := -(1.0 / (st.a_virial * zn * zn + st.a_virial * zp * zp +
      st.b_virial * zn * zp + 1.0) ^ (2:ℝ)) *
    (2.0 * st.a_virial * zn * zn / T * dmundnn +
      2.0 * st.a_virial * zp * zp / T * dmupdnn +
      st.b_virial * zn * zp / T * dmundnn +
      st.b_virial * zn * zp / T * dmupdnn)
  let dgvirialdpn := -(1.0 / (st.a_virial * zn * zn + st.a_virial * zp * zp +
      st.b_virial * zn * zp + 1.0) ^ (2:ℝ)) *
    (2.0 * st.a_virial * zn * zn / T * dmundpn +
      2.0 * st.a_virial * zp * zp / T * dmupdpn +
      st.b_virial * zn * zp / T * dmundpn +
      st.b_virial * zn * zp / T * dmupdpn)
  let dfvirialdnn := mu_n_virial
  let dfvirialdpn := mu_p_virial
  let dfskyrme_eqden_T0dnn := (mu_n_skyrme_eqdenT0 + mu_p_skyrme_eqdenT0) /
    2.0
  let dfskyrme_eqden_T0dpn := dfskyrme_eqden_T0dnn
  let dhdnn := -gamma * Real.exp (gamma * (nn + pn - 1.5 * n0)) /
    (1.0 + Real.exp (gamma * (nn + pn - 1.5 * n0))) /
    (1.0 + Real.exp (gamma * (nn + pn - 1.5 * n0)))
  let desymdnn := ((st.qmc_a * ((nn + pn) / st.qmc_n0) ^ st.qmc_alpha *
      (st.qmc_alpha + 1.0) +
      st.qmc_b * ((nn + pn) / st.qmc_n0) ^ st.qmc_beta *
      (st.qmc_beta + 1.0)) / hc_mev_fm) * h + e_qmc * dhdnn +
    densdnn * (1.0 - h) - e_ns * dhdnn - dfskyrme_eqden_T0dpn / 2.0 -
    dfskyrme_eqden_T0dnn / 2.0
  let desymdpn := desymdnn
  let dfdegdnn := dfskyrme_eqden_T0dnn + (1.0 - 2.0 * ye) *
      (1.0 - 2.0 * ye) * desymdnn + ddelta2dnn * e_sym +
    delta2 * (mu_n_neut_T - mu_n_neut_T0) +
    ddelta2dnn * (f_skyrme_neut_T - f_skyrme_neut_T0) +
    (1.0 - delta2) * (mu_n_eqden_T / 2.0 + mu_p_eqden_T / 2.0 -
      mu_n_eqden_T0 / 2.0 - mu_p_eqden_T0 / 2.0) -
    ddelta2dnn * (f_skyrme_eqden_T - f_skyrme_eqden_T0)
  let dfdegdpn := dfskyrme_eqden_T0dpn +
    (1.0 - 2.0 * ye) * (1.0 - 2.0 * ye) * desymdpn +
    ddelta2dpn * e_sym +
    delta2 * (mu_n_neut_T - mu_n_neut_T0) +
    ddelta2dpn * (f_skyrme_neut_T - f_skyrme_neut_T0) +
    (1.0 - delta2) * (mu_p_eqden_T / 2.0 + mu_n_eqden_T / 2.0 -
      mu_p_eqden_T0 / 2.0 - mu_n_eqden_T0 / 2.0) -
    ddelta2dpn * (f_skyrme_eqden_T - f_skyrme_eqden_T0)
  let n_mu := dfvirialdnn * g_virial + f_virial * dgvirialdnn +
    dfdegdnn * (1 - g_virial) + f_deg * (-dgvirialdnn)
  let p_mu := dfvirialdpn * g_virial + f_virial * dgvirialdpn +
    dfdegdpn * (1 - g_virial) + f_deg * (-dgvirialdpn)
  -- Compute derivatives for entropy
  let dgvirialdT := -(1.0 / (1.0 + st.a_virial * zn * zn +
      st.a_virial * zp * zp + st.b_virial * zn * zp) ^ (2:ℝ)) *
    (2.0 * st.a_virial * zn * zn * dmundT / T -
      2.0 * st.a_virial * zn * zn * mu_n_virial / T / T +
      2.0 * st.a_virial * zp * zp * dmupdT / T -
      2.0 * st.a_virial * zp * zp * mu_p_virial / T / T +
      st.b_virial * zn * zp * dmundT / T +
      st.b_virial * zn * zp * dmupdT / T -
      st.b_virial * zn * zp * mu_n_virial / T / T -
      st.b_virial * zn * zp * mu_p_virial / T / T)
  -- n.n and p.n are restored to nn and pn here in the source
  let dfdegdT := delta2 * (-s_neut_T) + (1.0 - delta2) * (-s_eqden_T)
  let th_en := -(dfvirialdT * g_virial + f_virial * dgvirialdT +
    dfdegdT * (1 - g_virial) + f_deg * (-dgvirialdT))
  let th_pr := -f_total + nn * n_mu + pn * p_mu
  let th_ed := f_total + T * th_en
  { f_total := f_total,
    n := { n with mu := n_mu },
    p := { p with mu := p_mu },
    th := { ed := th_ed, pr := th_pr, en := th_en },
    st := { st with
      f_virial := f_virial,
      s_virial := s_virial,
      g_virial := g_virial,
      f_deg := f_deg,
      dgvirialdT := dgvirialdT } }

/-- `eos::free_energy_density`: fails fast through `O2SCL_ERR` when no model
is selected, otherwise runs the combiner body. -/
def free_energy_density (oc : EosOracles) (st : EosState) (n p : Fermion)
    (T : ℝ) : Except String FedResult :=
  if st.model_selected = false then
    Except.error "No model selected in free_energy_density()."
  else
    Except.ok (fed_core oc st n p T)

/-- The virial modulation function g_virial written in
`eos::free_energy_density`: g = 1 / (a zn^2 + a zp^2 + b zn zp + 1). -/
def gvirial (a b zn zp : ℝ) : ℝ :=
  1.0 / (a * zn * zn + a * zp * zp + b * zn * zp + 1.0)

/-- A concrete oracle bundle whose sub-models all return zero, used for
witnesses. -/
def zeroOracles : EosOracles where
  calc_e := fun _ _ => ⟨0, 0, 0, 0⟩
  chiral_calc_temp_e := fun _ _ _ => ⟨0, 0, 0, 0⟩
  chiral_calc_e := fun _ _ => ⟨0, 0, 0, 0⟩
  vs := zeroVS
  hyperg := fun _ _ _ _ => 0
  ns_solve_big := (0, 0)
  ns_solve_small := (0, 0)

/-- The state of the `eos` object right after its constructor `eos::eos()`:
no model selected, the constructor defaults for the QMC parameters and the
virial modulation coefficients, and the fitted virial-coefficient parameter
vectors of the `eos_crust_virial_v2` constructor.  Fields the constructor
leaves unset are zero here. -/
def defaultState : EosState where
  model_selected := false
  select_cs2_test := true
  a_virial := 3.0
  b_virial := 0.0
  qmc_alpha := 0.48
  qmc_beta := 3.45
  qmc_a := 12.7
  qmc_b := 2.12
  qmc_n0 := 0.16
  old_ns_fit := true
  ns_fit_parms := fun _ => 0
  ns_nb_max := 0
  phi := 0
  i_ns := -1
  i_skyrme := -1
  eos_S := 0
  eos_L := 0
  eos_EoA := 0
  eos_K := 0
  eos_n0 := 0
  bn_params := ![2.874487202922e-01, 2.200575070883e-03,
    -2.621025627694e-05, -6.061665959200e-08, 1.059451872186e-02,
    5.673374476876e-02, 3.492489364849, -2.710552654167e-03,
    3.140521199464, 1.200987113605]
  bpn_params := ![1.527316309589, 1.748834077357e-04, 1.754991542102e+01,
    4.510380054238e-01, 2.751333759925e-01, -1.125035495140]
  f_virial := 0
  s_virial := 0
  g_virial := 0
  f_deg := 0
  dgvirialdT := 0

/-- The default state with a model marked selected, for witnesses. -/
def selectedState : EosState :=
  { defaultState with model_selected := true }

/-- A concrete neutron state for witnesses (n = 0.16 fm^-3, m = 4.8 fm^-1). -/
def wN : Fermion := ⟨0.16, 4.8, 0⟩

/-- A concrete proton state for witnesses. -/
def wP : Fermion := ⟨0.016, 4.8, 0⟩

/-- The density grid of `eos::min_max_cs2`: nb = 0.04 + 0.02 i while
nb < ns_nb_max.  The number of visited points is the number of naturals i
with 0.04 + 0.02 i < ns_nb_max. -/
def min_max_cs2_grid (ns_nb_max : ℝ) : List ℝ :=
  (List.range (Nat.ceil ((ns_nb_max - 0.04) / 0.02))).map
    (fun i : ℕ => 0.04 + 0.02 * (i : ℝ))

/-- `eos::min_max_cs2`: minimum and maximum of `cs2_fit` over nb = 0.08 and
the grid from 0.04 up to ns_nb_max. -/
def min_max_cs2 (old_ns_fit : Bool) (parms : Fin 5 → ℝ) (ns_nb_max : ℝ) :
    ℝ × ℝ :=
  let cs2 := cs2_fit old_ns_fit parms 0.08
  (min_max_cs2_grid ns_nb_max).foldl
    (fun mm nb => (min mm.1 (cs2_fit old_ns_fit parms nb),
                   max mm.2 (cs2_fit old_ns_fit parms nb)))
    (cs2, cs2)

/-- A row of the UNEDF Skyrme parameter table as read by
`eos::select_internal`. -/
structure UnedfRow where
  rho0 : ℝ
  Crdr0 : ℝ
  Vp : ℝ
  EoA : ℝ
  Crdr1 : ℝ
  CrdJ0 : ℝ
  K : ℝ
  Ms_inv : ℝ
  Vn : ℝ
  CrdJ1 : ℝ

/-- The Skyrme coupling fields read by the effective-mass checks of
`select_internal` after `sk.alt_params_saturation` has configured the
functional. -/
structure SkCouplings where
  t1 : ℝ
  x1 : ℝ
  t2 : ℝ
  x2 : ℝ

/-- External collaborators of `eos::select_internal`, as deterministic
functions of exactly the data the source passes them: `ns_fit` (the
nonlinear fit against the neutron-star table, returning the fitted
parameters and the possibly adjusted ns_nb_max), the UNEDF table lookup,
`sk.alt_params_saturation` (returning the couplings t1, x1, t2, x2 the
mass checks read), `sk.calc_e` for the dineutron check (returning th2.ed),
the beta-equilibrium solve at fixed T = 1 MeV (returning the solver status
and Ye), and `cs2_fixYe` (whose value rests on the external GSL numerical
differentiation of the combiner outputs). -/
structure SelOracles where
  ns_fit : ℤ → (Fin 5 → ℝ) × ℝ
  unedf : ℤ → UnedfRow
  alt_params : ℝ → ℝ → ℝ → ℝ → ℝ → ℝ → ℝ → ℝ → ℝ → ℝ → ℝ → SkCouplings
  sk_calc_e : ℝ → ℝ → ℝ
  beta_solve : ℝ → ℤ × ℝ
  cs2_fixYe : ℝ → ℝ → ℝ → ℝ

/-- The dineutron-check grid: nb = 0.01 + 0.001 i while nb < 0.16
(150 points). -/
def dineutron_grid : List ℝ :=
  (List.range 150).map (fun i : ℕ => 0.01 + 0.001 * (i : ℝ))

/-- The beta-equilibrium grid: nbx = 0.1 + 0.05 i while nbx < 2.00001
(39 points). -/
def beta_grid : List ℝ :=
  (List.range 39).map (fun i : ℕ => 0.1 + 0.05 * (i : ℝ))

/-- The cs2-test baryon-density grid (same 39 points as `beta_grid`). -/
def nb_grid : List ℝ :=
  (List.range 39).map (fun i : ℕ => 0.1 + 0.05 * (i : ℝ))

/-- The cs2-test electron-fraction grid: 0.05, 0.15, 0.25, 0.35, 0.45. -/
def ye_grid : List ℝ :=
  (List.range 5).map (fun j : ℕ => 0.05 + 0.1 * (j : ℝ))

/-- The cs2-test temperature grid: 1 MeV and 10 MeV, in internal units. -/
def T_grid : List ℝ :=
  (List.range 2).map (fun k : ℕ => (1.0 + 9.0 * (k : ℝ)) / hc_mev_fm)

/-- The dineutron loop of `select_internal`: scans nb over the grid and
signals failure at the first point with th2.ed / nb < 0. -/
def dineutron_scan (ce : ℝ → ℝ → ℝ) : List ℝ → Bool
  | [] => false
  | nb :: rest =>
    if ce nb 0.0 / nb < 0.0 then true else dineutron_scan ce rest

/-- The beta-equilibrium loop of `select_internal`: per density, a failed
solve returns code 8 and an out-of-range Ye returns code 9; the first
failure wins. -/
def beta_eq_scan (bs : ℝ → ℤ × ℝ) : List ℝ → Option ℤ
  | [] => none
  | nbx :: rest =>
    let r := bs nbx
    if r.1 ≠ 0 then some 8
    else if r.2 < 0.0 ∨ r.2 > 1.0 then some 9
    else beta_eq_scan bs rest

/-- The abort condition of the optional cs2 test in `select_internal`: some
probed grid point has a negative squared sound speed.  (The test checks only
cs2 < 0; values at or above 1 are not examined.) -/
def cs2_test_fails (cf : ℝ → ℝ → ℝ → ℝ) : Prop :=
  ∃ nbx ∈ nb_grid, ∃ yex ∈ ye_grid, ∃ Tx ∈ T_grid,
    cf (nbx * (1.0 - yex)) (nbx * yex) Tx < 0.0

/-- Outcome of `eos::select_internal`: an integer reason code with the
resulting object state, or a process abort (the `exit(-1)` inside the cs2
test). -/
inductive SelectResult where
  | ret : ℤ → EosState → SelectResult
  | abort : SelectResult

open Classical in
/-- `eos::select_internal`: stores the candidate parameters, marks the model
selected, and then runs the validation pipeline, clearing `model_selected`
and returning a distinct reason code at the first failing check.  `nmass`
and `pmass` are the rest masses of the global neutron and proton objects
used by the effective-mass checks. -/
def select_internal (orc : SelOracles) (st : EosState) (nmass pmass : ℝ)
    (i_ns_loc i_skyrme_loc : ℤ)
    (qmc_alpha_loc qmc_a_loc eos_L_loc eos_S_loc phi_loc : ℝ) :
    SelectResult :=
  let st := { st with
    i_ns := i_ns_loc,
    i_skyrme := i_skyrme_loc,
    qmc_alpha := qmc_alpha_loc,
    qmc_a := qmc_a_loc,
    eos_L := eos_L_loc,
    eos_S := eos_S_loc,
    phi := phi_loc,
    model_selected := true }
  let fit := orc.ns_fit i_ns_loc
  let st := { st with
    ns_fit_parms := fit.1,
    ns_nb_max := fit.2 }
  let mm := min_max_cs2 st.old_ns_fit fit.1 fit.2
  if mm.1 < 0.0 then SelectResult.ret 1 { st with model_selected := false }
  else if 9.17 * eos_S_loc - 266.0 > eos_L_loc ∨
      14.3 * eos_S_loc - 379.0 < eos_L_loc then
    SelectResult.ret 2 { st with model_selected := false }
  else
    let row := orc.unedf i_skyrme_loc
    let st := { st with
      eos_n0 := row.rho0,
      eos_EoA := row.EoA,
      eos_K := row.K }
    let qmc_b := eos_S_loc + row.EoA - qmc_a_loc
    let qmc_beta := (eos_L_loc / 3.0 - qmc_a_loc * qmc_alpha_loc) / qmc_b
    let st := { st with
      qmc_b := qmc_b,
      qmc_beta := qmc_beta }
    if qmc_b < 0.0 ∨ qmc_beta > 5.0 then
      SelectResult.ret 3 { st with model_selected := false }
    else
      let skc := orc.alt_params row.rho0 (row.EoA / hc_mev_fm)
        (row.K / hc_mev_fm) (1 / row.Ms_inv) (eos_S_loc / hc_mev_fm)
        (eos_L_loc / hc_mev_fm) (1.0 / 1.249) (row.Crdr0 / hc_mev_fm)
        (row.Crdr1 / hc_mev_fm) (row.CrdJ0 / hc_mev_fm)
        (row.CrdJ1 / hc_mev_fm)
      if dineutron_scan orc.sk_calc_e dineutron_grid then
        SelectResult.ret 4 { st with model_selected := false }
      else
        let term := 0.25 * (skc.t1 * (1.0 + skc.x1 / 2.0) +
          skc.t2 * (1.0 + skc.x2 / 2.0))
        let term2 := 0.25 * (skc.t2 * (0.5 + skc.x2) -
          skc.t1 * (0.5 + skc.x1))
        -- n.n = 1, p.n = 1
        let nms5 := nmass /
          (1.0 + 2.0 * ((1.0 + 1.0) * term + 1.0 * term2) * nmass)
        let pms5 := pmass /
          (1.0 + 2.0 * ((1.0 + 1.0) * term + 1.0 * term2) * pmass)
        if nms5 < 0.0 ∨ pms5 < 0.0 then
          SelectResult.ret 5 { st with model_selected := false }
        else
          -- n.n = 2, p.n = 0
          let nms6 := nmass /
            (1.0 + 2.0 * ((2.0 + 0.0) * term + 2.0 * term2) * nmass)
          let pms6 := pmass /
            (1.0 + 2.0 * ((2.0 + 0.0) * term + 0.0 * term2) * pmass)
          if nms6 < 0.0 ∨ pms6 < 0.0 then
            SelectResult.ret 6 { st with model_selected := false }
          else
            -- n.n = 0, p.n = 2
            let nms7 := nmass /
              (1.0 + 2.0 * ((0.0 + 2.0) * term + 0.0 * term2) * nmass)
            let pms7 := pmass /
              (1.0 + 2.0 * ((0.0 + 2.0) * term + 2.0 * term2) * pmass)
            if nms7 < 0.0 ∨ pms7 < 0.0 then
              SelectResult.ret 7 { st with model_selected := false }
            else
              match beta_eq_scan orc.beta_solve beta_grid with
              | some code =>
                SelectResult.ret code { st with model_selected := false }
              | none =>
                let st := { st with model_selected := true }
                if st.select_cs2_test then
                  if cs2_test_fails orc.cs2_fixYe then SelectResult.abort
                  else SelectResult.ret 0 st
                else SelectResult.ret 0 st

/-- A concrete oracle bundle for the validator on which every check passes
while the probed squared sound speed is 1.5 everywhere. -/
def selOrcW : SelOracles where
  ns_fit := fun _ => (fun _ => 0, 0.02)
  unedf := fun _ => ⟨0.16, 0, 0, -16, 0, 0, 220, 1, 0, 0⟩
  alt_params := fun _ _ _ _ _ _ _ _ _ _ _ => ⟨0, 0, 0, 0⟩
  sk_calc_e := fun _ _ => 1
  beta_solve := fun _ => (0, 0.05)
  cs2_fixYe := fun _ _ _ => 1.5

/-- The object state produced by a successful `select_internal` run on
`selOrcW` with the witness parameters (i_ns = 0, i_skyrme = 0, alpha = 0.5,
a = 13, L = 50, S = 32, phi = 0). -/
def stWfinal : EosState :=
  { defaultState with
    i_ns := 0,
    i_skyrme := 0,
    qmc_alpha := 0.5,
    qmc_a := 13,
    eos_L := 50,
    eos_S := 32,
    phi := 0,
    model_selected := true,
    ns_fit_parms := (selOrcW.ns_fit 0).1,
    ns_nb_max := (selOrcW.ns_fit 0).2,
    eos_n0 := (selOrcW.unedf 0).rho0,
    eos_EoA := (selOrcW.unedf 0).EoA,
    eos_K := (selOrcW.unedf 0).K,
    qmc_b := 32 + (selOrcW.unedf 0).EoA - 13,
    qmc_beta := (50 / 3.0 - 13 * 0.5) / (32 + (selOrcW.unedf 0).EoA - 13) }

/-- C1: at nb = ns_nb_max every causal-continuation branch of `new_ns_eos`
(increasing, decreasing and constant sound speed) returns exactly the value
and the derivative of the low-density polynomial fit, `ed_fit ns_nb_max` and
`mu_fit ns_nb_max`.  The identity holds for arbitrary solver outputs (a1, a2)
given the closed-form c1, c2, under the hypotheses that a1 differs from 2 on
the increasing branch and that the denominators appearing in the closed forms
are nonzero. -/
theorem C1_new_ns_eos_continuity
    (hyperg : ℝ → ℝ → ℝ → ℝ → ℝ) (solveBig solveSmall : ℝ × ℝ)
    (old_ns_fit : Bool) (parms : Fin 5 → ℝ) (N phi nm : ℝ)
    (hN : 0 < N)
    (hbig1 : solveBig.1 ≠ 2)
    (hbig2 : 1 + solveBig.2 * N ^ solveBig.1 ≠ 0)
    (hsm1 : solveSmall.2 ≠ 0)
    (hsm2 : solveSmall.2 * N ^ solveSmall.1 + 1 ≠ 0)
    (hcs : 1 + cs2_fit old_ns_fit parms N ≠ 0) :
    new_ns_eos hyperg solveBig solveSmall old_ns_fit parms N phi nm N =
      { e_ns := ed_fit old_ns_fit parms N,
        densdnn := mu_fit old_ns_fit parms N } := by
  have hNe : N ≠ 0 := ne_of_gt hN
  have hcut : ¬ N < N - 1.0e-6 := by
    rw [not_lt]
    nlinarith [show (0:ℝ) < 1.0e-6 by norm_num]
  simp only [new_ns_eos]
  rw [if_neg hcut]
  rcases lt_trichotomy phi (cs2_fit old_ns_fit parms N) with hlt | heq | hgt
  · -- decreasing-sound-speed branch
    rw [if_neg (lt_asymm hlt), if_pos hlt]
    set a1 := solveSmall.1 with ha1def
    set a2 := solveSmall.2 with ha2def
    have hu : (0:ℝ) < N ^ a1 := Real.rpow_pos_of_pos hN a1
    have hu0 : N ^ a1 ≠ 0 := ne_of_gt hu
    have hneg : N ^ (-a1) = (N ^ a1)⁻¹ := Real.rpow_neg hN.le a1
    have hm1 : N ^ (-a1 - 1) = ((N ^ a1) * N)⁻¹ := by
      rw [show -a1 - 1 = -(a1 + 1) by ring, Real.rpow_neg hN.le,
        Real.rpow_add hN, Real.rpow_one]
    have hsm2' : 1 + a2 * N ^ a1 ≠ 0 := fun h => hsm2 (by linarith)
    rw [NsOut.mk.injEq]
    constructor
    · simp only [hneg, hm1]
      norm_num only
      field_simp
      ring
    · simp only [hneg, hm1]
      norm_num only
      field_simp
      ring
  · -- constant-sound-speed branch
    rw [if_neg (by rw [heq]; exact lt_irrefl _),
      if_neg (by rw [heq]; exact lt_irrefl _)]
    have hself : N / N = 1 := div_self hNe
    rw [NsOut.mk.injEq]
    constructor
    · rw [hself, Real.one_rpow]
      norm_num only
      field_simp
      ring
    · rw [hself, Real.one_rpow]
      field_simp
      ring
  · -- increasing-sound-speed branch
    rw [if_pos hgt]
    set a1 := solveBig.1 with ha1def
    set a2 := solveBig.2 with ha2def
    have hu : (0:ℝ) < N ^ a1 := Real.rpow_pos_of_pos hN a1
    have hu0 : N ^ a1 ≠ 0 := ne_of_gt hu
    have hneg : N ^ (-a1) = (N ^ a1)⁻¹ := Real.rpow_neg hN.le a1
    have h2 : N ^ ((2:ℝ) - a1) = N * N / N ^ a1 := by
      rw [Real.rpow_sub hN, Real.rpow_two]
      ring
    have h1 : N ^ ((1:ℝ) - a1) = N / N ^ a1 := by
      rw [Real.rpow_sub hN, Real.rpow_one]
    have ha1' : a1 - 2 ≠ 0 := sub_ne_zero.mpr hbig1
    have ha1'' : (2:ℝ) - a1 ≠ 0 := sub_ne_zero.mpr (Ne.symm hbig1)
    have hbig2' : a2 * N ^ a1 + 1 ≠ 0 := fun h => hbig2 (by linarith)
    have hxden : a2 + (N ^ a1)⁻¹ ≠ 0 := by
      have hrw : a2 + (N ^ a1)⁻¹ = (a2 * N ^ a1 + 1) / N ^ a1 := by
        field_simp
      rw [hrw]
      exact div_ne_zero hbig2' hu0
    rw [NsOut.mk.injEq]
    constructor
    · simp only [h2, hneg]
      norm_num only
      field_simp
      ring
    · simp only [h1, hneg]
      field_simp
      ring

/-- Witness for C1 at a concrete instance. -/
theorem C1_new_ns_eos_continuity_witness :
    new_ns_eos (fun _ _ _ _ => 0) (3, 0) (1, 1) false (fun _ => 0) 1 0 0 1 =
      { e_ns := ed_fit false (fun _ => 0) 1,
        densdnn := mu_fit false (fun _ => 0) 1 } :=
  C1_new_ns_eos_continuity (fun _ _ _ _ => 0) (3, 0) (1, 1) false
    (fun _ => 0) 1 0 0 (by norm_num) (by norm_num)
    (by norm_num [Real.one_rpow]) (by norm_num)
    (by norm_num [Real.one_rpow])
    (by norm_num [cs2_fit, dmudn_fit, mu_fit, hc_mev_fm])

/-- Bounds on the cube of the thermal wavelength at masses 1/2, 1/2 and
T = 1, used by concrete witnesses: lambda = sqrt(4 pi). -/
lemma lambda_virial_half_cube_bounds :
    36 ≤ lambda_virial 0.5 0.5 1 ^ (3:ℝ) ∧
      lambda_virial 0.5 0.5 1 ^ (3:ℝ) ≤ 51 := by
  have harg : (4.0:ℝ) * Real.pi / (0.5 + 0.5) / 1 = 4 * Real.pi := by
    norm_num
  have hpi1 : (3:ℝ) < Real.pi := Real.pi_gt_three
  have hpi2 : Real.pi < 3.15 := Real.pi_lt_d2
  have hnn : (0:ℝ) ≤ 4 * Real.pi := by positivity
  have hL : lambda_virial 0.5 0.5 1 = Real.sqrt (4 * Real.pi) := by
    rw [lambda_virial, harg]
  have hLsq : Real.sqrt (4 * Real.pi) ^ (2:ℕ) = 4 * Real.pi :=
    Real.sq_sqrt hnn
  have hsplit : Real.sqrt (4 * Real.pi) ^ (3:ℕ) =
      Real.sqrt (4 * Real.pi) ^ (2:ℕ) * Real.sqrt (4 * Real.pi) := by
    ring
  have hL3 : lambda_virial 0.5 0.5 1 ^ (3:ℝ) =
      4 * Real.pi * Real.sqrt (4 * Real.pi) := by
    rw [hL, show (3:ℝ) = ((3:ℕ):ℝ) by norm_num, Real.rpow_natCast,
      hsplit, hLsq]
  have hs1 : (3:ℝ) ≤ Real.sqrt (4 * Real.pi) := by
    have h9 : (9:ℝ) ≤ 4 * Real.pi := by nlinarith
    have : Real.sqrt 9 ≤ Real.sqrt (4 * Real.pi) := Real.sqrt_le_sqrt h9
    rwa [show (9:ℝ) = 3 ^ 2 by norm_num,
      Real.sqrt_sq (by norm_num : (0:ℝ) ≤ 3)] at this
  have hs2 : Real.sqrt (4 * Real.pi) ≤ 4 := by
    have h16 : 4 * Real.pi ≤ 16 := by nlinarith
    have : Real.sqrt (4 * Real.pi) ≤ Real.sqrt 16 := Real.sqrt_le_sqrt h16
    rwa [show (16:ℝ) = 4 ^ 2 by norm_num,
      Real.sqrt_sq (by norm_num : (0:ℝ) ≤ 4)] at this
  constructor
  · rw [hL3]
    nlinarith
  · rw [hL3]
    nlinarith

/-- At nn = pn = 1e-8, masses 1/2 and T = 1 the dilute-branch test of
`free_energy_density_virial` is not triggered. -/
lemma dilute_cond_concrete :
    ¬ ((1.0e-8:ℝ) * lambda_virial 0.5 0.5 1 ^ (3:ℝ) > 1.0e-5 ∨
       (1.0e-8:ℝ) * lambda_virial 0.5 0.5 1 ^ (3:ℝ) > 1.0e-5) := by
  have hb := lambda_virial_half_cube_bounds
  push_neg
  constructor <;> nlinarith [hb.1, hb.2]

/-- C3 (amended): in the dilute limit (both nn lambda^3 and pn lambda^3 at
most 1e-5) the density derivatives of the virial chemical potentials are
d mu_n / d n_n = T lambda^3 / (2 z_n), d mu_p / d n_p = T lambda^3 / (2 z_p)
with z = exp(mu/T), and the cross derivatives vanish.  (The spec omits the
factor lambda^3; see the counterexample.) -/
theorem C3_dilute_mu_derivatives
    (vs : VirialSolverOracle) (bn_params : Fin 10 → ℝ)
    (bpn_params : Fin 6 → ℝ) (nn pn nmass pmass T : ℝ)
    (hn : nn * lambda_virial nmass pmass T ^ (3:ℝ) ≤ 1.0e-5)
    (hp : pn * lambda_virial nmass pmass T ^ (3:ℝ) ≤ 1.0e-5) :
    (free_energy_density_virial vs bn_params bpn_params
        nn pn nmass pmass T).dmundnn =
      T * lambda_virial nmass pmass T ^ (3:ℝ) / 2.0 /
        Real.exp ((free_energy_density_virial vs bn_params bpn_params
          nn pn nmass pmass T).mun / T) ∧
    (free_energy_density_virial vs bn_params bpn_params
        nn pn nmass pmass T).dmupdpn =
      T * lambda_virial nmass pmass T ^ (3:ℝ) / 2.0 /
        Real.exp ((free_energy_density_virial vs bn_params bpn_params
          nn pn nmass pmass T).mup / T) ∧
    (free_energy_density_virial vs bn_params bpn_params
        nn pn nmass pmass T).dmupdnn = 0 ∧
    (free_energy_density_virial vs bn_params bpn_params
        nn pn nmass pmass T).dmundpn = 0 := by
  have hcond : ¬ (nn * lambda_virial nmass pmass T ^ (3:ℝ) > 1.0e-5 ∨
      pn * lambda_virial nmass pmass T ^ (3:ℝ) > 1.0e-5) := by
    push_neg
    exact ⟨hn, hp⟩
  simp only [free_energy_density_virial, if_neg hcond]
  norm_num

/-- Witness for C3 at a concrete dilute instance. -/
theorem C3_dilute_mu_derivatives_witness :
    ((1.0e-8:ℝ) * lambda_virial 0.5 0.5 1 ^ (3:ℝ) ≤ 1.0e-5) ∧
    (free_energy_density_virial zeroVS (fun _ => 0) (fun _ => 0)
        1.0e-8 1.0e-8 0.5 0.5 1).dmundnn =
      1 * lambda_virial 0.5 0.5 1 ^ (3:ℝ) / 2.0 /
        Real.exp ((free_energy_density_virial zeroVS (fun _ => 0)
          (fun _ => 0) 1.0e-8 1.0e-8 0.5 0.5 1).mun / 1) := by
  have hb := lambda_virial_half_cube_bounds
  have hd : (1.0e-8:ℝ) * lambda_virial 0.5 0.5 1 ^ (3:ℝ) ≤ 1.0e-5 := by
    nlinarith [hb.1, hb.2]
  exact ⟨hd, (C3_dilute_mu_derivatives zeroVS (fun _ => 0) (fun _ => 0)
    1.0e-8 1.0e-8 0.5 0.5 1 hd hd).1⟩

/-- C3 counterexample: at nn = pn = 1e-8, masses 1/2, T = 1 (a point inside
the dilute regime) the returned derivative d mu_n / d n_n differs from the
form T / (2 z_n) stated in the spec, because lambda^3 is not 1 there. -/
theorem C3_spec_form_counterexample :
    (free_energy_density_virial zeroVS (fun _ => 0) (fun _ => 0)
        1.0e-8 1.0e-8 0.5 0.5 1).dmundnn ≠
      1 / (2.0 * Real.exp ((free_energy_density_virial zeroVS (fun _ => 0)
        (fun _ => 0) 1.0e-8 1.0e-8 0.5 0.5 1).mun / 1)) := by
  have hb := lambda_virial_half_cube_bounds
  have hL3pos : (0:ℝ) < lambda_virial 0.5 0.5 1 ^ (3:ℝ) := by
    nlinarith [hb.1]
  simp only [free_energy_density_virial, if_neg dilute_cond_concrete]
  have hzn : Real.exp (Real.log ((1.0e-8:ℝ) *
      lambda_virial 0.5 0.5 1 ^ (3:ℝ) / 2.0) * 1 / 1) =
      (1.0e-8:ℝ) * lambda_virial 0.5 0.5 1 ^ (3:ℝ) / 2.0 := by
    rw [mul_one, div_one]
    exact Real.exp_log (by positivity)
  rw [hzn]
  set L3 := lambda_virial 0.5 0.5 1 ^ (3:ℝ) with hL3def
  have hL3ne : L3 ≠ 0 := ne_of_gt hL3pos
  have hlhs : (1:ℝ) * L3 / 2.0 / (1.0e-8 * L3 / 2.0) = 1.0e8 := by
    field_simp
    ring
  rw [hlhs]
  have hrhs : (1:ℝ) / (2.0 * (1.0e-8 * L3 / 2.0)) = 1 / (1.0e-8 * L3) := by
    congr 1
    ring
  rw [hrhs]
  have hlt : (1:ℝ) / (1.0e-8 * L3) < 1.0e8 := by
    rw [div_lt_iff₀ (by nlinarith [hb.1])]
    nlinarith [hb.1]
  exact ne_of_gt hlt

/-- C7: the regime selection of `free_energy_density_virial`.  When both
nn lambda^3 and pn lambda^3 are at most 1e-5, the closed-form classical-gas
branch is used: mu = T log(n lambda^3 / 2) and pressure
2 T / lambda^3 (z_n + z_p).  When either product exceeds 1e-5, the chemical
potentials come from the coupled fugacity solve and the pressure includes
the second-virial terms (z_n^2 + z_p^2) b_n + 2 z_p z_n b_pn. -/
theorem C7_virial_regime_branches
    (vs : VirialSolverOracle) (bn_params : Fin 10 → ℝ)
    (bpn_params : Fin 6 → ℝ) (nn pn nmass pmass T : ℝ) :
    (nn * lambda_virial nmass pmass T ^ (3:ℝ) ≤ 1.0e-5 ∧
     pn * lambda_virial nmass pmass T ^ (3:ℝ) ≤ 1.0e-5 →
      (free_energy_density_virial vs bn_params bpn_params
          nn pn nmass pmass T).mun =
        Real.log (nn * lambda_virial nmass pmass T ^ (3:ℝ) / 2.0) * T ∧
      (free_energy_density_virial vs bn_params bpn_params
          nn pn nmass pmass T).mup =
        Real.log (pn * lambda_virial nmass pmass T ^ (3:ℝ) / 2.0) * T ∧
      (free_energy_density_virial vs bn_params bpn_params
          nn pn nmass pmass T).th.pr =
        2.0 * T / lambda_virial nmass pmass T ^ (3:ℝ) *
          (Real.exp ((free_energy_density_virial vs bn_params bpn_params
              nn pn nmass pmass T).mun / T) +
           Real.exp ((free_energy_density_virial vs bn_params bpn_params
              nn pn nmass pmass T).mup / T))) ∧
    (1.0e-5 < nn * lambda_virial nmass pmass T ^ (3:ℝ) ∨
     1.0e-5 < pn * lambda_virial nmass pmass T ^ (3:ℝ) →
      ((free_energy_density_virial vs bn_params bpn_params
          nn pn nmass pmass T).mun,
       (free_energy_density_virial vs bn_params bpn_params
          nn pn nmass pmass T).mup) =
        vs.solve_fugacity nn pn T (bn_f bn_params (T * hc_mev_fm))
          (bpn_f bpn_params (T * hc_mev_fm))
          (lambda_virial nmass pmass T) ∧
      (free_energy_density_virial vs bn_params bpn_params
          nn pn nmass pmass T).th.pr =
        2.0 * T / lambda_virial nmass pmass T ^ (3:ℝ) *
          (Real.exp ((free_energy_density_virial vs bn_params bpn_params
              nn pn nmass pmass T).mun / T) +
           Real.exp ((free_energy_density_virial vs bn_params bpn_params
              nn pn nmass pmass T).mup / T) +
           (Real.exp ((free_energy_density_virial vs bn_params bpn_params
              nn pn nmass pmass T).mun / T) *
            Real.exp ((free_energy_density_virial vs bn_params bpn_params
              nn pn nmass pmass T).mun / T) +
            Real.exp ((free_energy_density_virial vs bn_params bpn_params
              nn pn nmass pmass T).mup / T) *
            Real.exp ((free_energy_density_virial vs bn_params bpn_params
              nn pn nmass pmass T).mup / T)) *
             bn_f bn_params (T * hc_mev_fm) +
           2.0 * Real.exp ((free_energy_density_virial vs bn_params
              bpn_params nn pn nmass pmass T).mup / T) *
             Real.exp ((free_energy_density_virial vs bn_params bpn_params
              nn pn nmass pmass T).mun / T) *
             bpn_f bpn_params (T * hc_mev_fm))) := by
  constructor
  · rintro ⟨h1, h2⟩
    have hcond : ¬ (nn * lambda_virial nmass pmass T ^ (3:ℝ) > 1.0e-5 ∨
        pn * lambda_virial nmass pmass T ^ (3:ℝ) > 1.0e-5) := by
      push_neg
      exact ⟨h1, h2⟩
    simp only [free_energy_density_virial, if_neg hcond]
    norm_num
  · intro h
    have hcond : nn * lambda_virial nmass pmass T ^ (3:ℝ) > 1.0e-5 ∨
        pn * lambda_virial nmass pmass T ^ (3:ℝ) > 1.0e-5 := h
    simp only [free_energy_density_virial, if_pos hcond]
    norm_num

/-- Witness for C7 at a concrete dilute instance. -/
theorem C7_virial_regime_branches_witness :
    ((1.0e-8:ℝ) * lambda_virial 0.5 0.5 1 ^ (3:ℝ) ≤ 1.0e-5 ∧
     (1.0e-8:ℝ) * lambda_virial 0.5 0.5 1 ^ (3:ℝ) ≤ 1.0e-5) ∧
    (free_energy_density_virial zeroVS (fun _ => 0) (fun _ => 0)
        1.0e-8 1.0e-8 0.5 0.5 1).mun =
      Real.log ((1.0e-8:ℝ) * lambda_virial 0.5 0.5 1 ^ (3:ℝ) / 2.0) * 1 := by
  have hb := lambda_virial_half_cube_bounds
  have hd : (1.0e-8:ℝ) * lambda_virial 0.5 0.5 1 ^ (3:ℝ) ≤ 1.0e-5 := by
    nlinarith [hb.1, hb.2]
  exact ⟨⟨hd, hd⟩, ((C7_virial_regime_branches zeroVS (fun _ => 0)
    (fun _ => 0) 1.0e-8 1.0e-8 0.5 0.5 1).1 ⟨hd, hd⟩).1⟩

/-- A successful `free_energy_density` call implies the model was selected
and the result is the combiner body. -/
lemma free_energy_density_ok_iff {oc : EosOracles} {st : EosState}
    {n p : Fermion} {T : ℝ} {r : FedResult}
    (h : free_energy_density oc st n p T = Except.ok r) :
    st.model_selected = true ∧ r = fed_core oc st n p T := by
  by_cases hm : st.model_selected = false
  · rw [free_energy_density, if_pos hm] at h
    exact absurd h (by simp)
  · have hm' : st.model_selected = true := by
      cases hsel : st.model_selected
      · exact absurd hsel hm
      · rfl
    rw [free_energy_density, if_neg hm] at h
    exact ⟨hm', ((Except.ok.injEq _ _).mp h).symm⟩

/-- C2: calling `free_energy_density` with `model_selected` false raises the
fatal error and returns no free-energy value; with `model_selected` true the
error branch is unreachable and the combiner body runs. -/
theorem C2_fail_fast_without_model (oc : EosOracles) (st : EosState)
    (n p : Fermion) (T : ℝ) :
    (st.model_selected = false →
      free_energy_density oc st n p T =
        Except.error "No model selected in free_energy_density().") ∧
    (st.model_selected = true →
      free_energy_density oc st n p T =
        Except.ok (fed_core oc st n p T)) := by
  constructor
  · intro h
    rw [free_energy_density, if_pos h]
  · intro h
    rw [free_energy_density, if_neg (by simp [h])]

/-- Witness for C2: the freshly constructed state has no model selected and
the call fails. -/
theorem C2_fail_fast_without_model_witness :
    free_energy_density zeroOracles defaultState wN wP 1 =
      Except.error "No model selected in free_energy_density()." :=
  (C2_fail_fast_without_model zeroOracles defaultState wN wP 1).1 rfl

/-- C4: on every successful call, the thermo outputs satisfy
th.pr = -f_total + n_n mu_n + n_p mu_p and th.ed = f_total + T th.en, with
mu_n, mu_p the chemical potentials written into the particle states. -/
theorem C4_euler_identity (oc : EosOracles) (st : EosState) (n p : Fermion)
    (T : ℝ) (r : FedResult)
    (h : free_energy_density oc st n p T = Except.ok r) :
    r.th.pr = -r.f_total + n.n * r.n.mu + p.n * r.p.mu ∧
    r.th.ed = r.f_total + T * r.th.en := by
  obtain ⟨-, rfl⟩ := free_energy_density_ok_iff h
  exact ⟨rfl, rfl⟩

/-- Witness for C4 at a concrete model-selected instance. -/
theorem C4_euler_identity_witness :
    (fed_core zeroOracles selectedState wN wP 1).th.pr =
      -(fed_core zeroOracles selectedState wN wP 1).f_total +
        wN.n * (fed_core zeroOracles selectedState wN wP 1).n.mu +
        wP.n * (fed_core zeroOracles selectedState wN wP 1).p.mu ∧
    (fed_core zeroOracles selectedState wN wP 1).th.ed =
      (fed_core zeroOracles selectedState wN wP 1).f_total +
        1 * (fed_core zeroOracles selectedState wN wP 1).th.en :=
  C4_euler_identity zeroOracles selectedState wN wP 1
    (fed_core zeroOracles selectedState wN wP 1) rfl

/-- C10: on return the neutron and proton number densities and masses equal
their values at entry; the temporary overwrite with (nn+pn)/2 is restored
before the outputs are produced. -/
theorem C10_densities_restored (oc : EosOracles) (st : EosState)
    (n p : Fermion) (T : ℝ) (r : FedResult)
    (h : free_energy_density oc st n p T = Except.ok r) :
    r.n.n = n.n ∧ r.p.n = p.n ∧ r.n.m = n.m ∧ r.p.m = p.m := by
  obtain ⟨-, rfl⟩ := free_energy_density_ok_iff h
  exact ⟨rfl, rfl, rfl, rfl⟩

/-- Witness for C10 at a concrete model-selected instance. -/
theorem C10_densities_restored_witness :
    (fed_core zeroOracles selectedState wN wP 1).n.n = wN.n ∧
    (fed_core zeroOracles selectedState wN wP 1).p.n = wP.n ∧
    (fed_core zeroOracles selectedState wN wP 1).n.m = wN.m ∧
    (fed_core zeroOracles selectedState wN wP 1).p.m = wP.m :=
  C10_densities_restored zeroOracles selectedState wN wP 1
    (fed_core zeroOracles selectedState wN wP 1) rfl

/-- Replaying the combiner on its own outputs reproduces them exactly: the
body reads only the model-parameter fields of the state (which it does not
change) and the density and mass fields of the fermions (which it restores),
so the second evaluation is the same computation. -/
lemma fed_core_replay (oc : EosOracles) (st : EosState) (n p : Fermion)
    (T : ℝ) :
    fed_core oc (fed_core oc st n p T).st (fed_core oc st n p T).n
      (fed_core oc st n p T).p T = fed_core oc st n p T := rfl

/-- C9: evaluating the EOS twice at identical inputs with the same selected
model returns identical outputs; every mutable field read by the body is
fully overwritten before being read, so the second call is a pure replay. -/
theorem C9_identical_replay (oc : EosOracles) (st : EosState)
    (n p : Fermion) (T : ℝ) (r1 r2 : FedResult)
    (h1 : free_energy_density oc st n p T = Except.ok r1)
    (h2 : free_energy_density oc r1.st r1.n r1.p T = Except.ok r2) :
    r2.f_total = r1.f_total ∧ r2.n.mu = r1.n.mu ∧ r2.p.mu = r1.p.mu ∧
    r2.th = r1.th := by
  obtain ⟨-, rfl⟩ := free_energy_density_ok_iff h1
  obtain ⟨-, rfl⟩ := free_energy_density_ok_iff h2
  rw [fed_core_replay]
  exact ⟨rfl, rfl, rfl, rfl⟩

/-- Witness for C9 at a concrete model-selected instance. -/
theorem C9_identical_replay_witness :
    (fed_core zeroOracles (fed_core zeroOracles selectedState wN wP 1).st
      (fed_core zeroOracles selectedState wN wP 1).n
      (fed_core zeroOracles selectedState wN wP 1).p 1).f_total =
      (fed_core zeroOracles selectedState wN wP 1).f_total :=
  (C9_identical_replay zeroOracles selectedState wN wP 1
    (fed_core zeroOracles selectedState wN wP 1)
    (fed_core zeroOracles (fed_core zeroOracles selectedState wN wP 1).st
      (fed_core zeroOracles selectedState wN wP 1).n
      (fed_core zeroOracles selectedState wN wP 1).p 1) rfl rfl).1

open Filter in
/-- C8 counterexample: with a = 0 and b = 0 (both nonnegative, as the claim
allows) the weight is identically 1 and does not tend to 0 as the fugacities
grow. -/
theorem C8_zero_coefficients_counterexample :
    (0:ℝ) ≤ 0 ∧
    ¬ Tendsto (fun q : ℝ × ℝ => gvirial 0 0 q.1 q.2)
      (atTop ×ˢ atTop) (nhds 0) := by
  refine ⟨le_refl 0, ?_⟩
  have hconst : (fun q : ℝ × ℝ => gvirial 0 0 q.1 q.2) = fun _ => 1 := by
    funext q
    rw [gvirial]
    norm_num
  rw [hconst]
  intro h
  have h1 : Tendsto (fun _ : ℝ × ℝ => (1:ℝ)) (atTop ×ˢ atTop) (nhds 1) :=
    tendsto_const_nhds
  haveI : (atTop ×ˢ atTop : Filter (ℝ × ℝ)).NeBot :=
    prod_neBot.mpr ⟨atTop_neBot, atTop_neBot⟩
  have := tendsto_nhds_unique h h1
  norm_num at this

open Filter in
/-- C8 (amended): the virial regime weight computed in
`free_energy_density` equals gvirial a b zn zp = 1/(a zn^2 + a zp^2 +
b zn zp + 1) with z = exp(mu_vir/T); for nonnegative a, b it lies in (0, 1]
and tends to 1 as both fugacities tend to 0, and it tends to 0 as the
fugacities grow provided additionally a + b > 0 (true for the defaults
a = 3, b = 0; for a = b = 0 the weight is constantly 1). -/
theorem C8_gvirial_weight
    (oc : EosOracles) (st : EosState) (n p : Fermion) (T : ℝ)
    (a b : ℝ) (ha : 0 ≤ a) (hb : 0 ≤ b) (hab : 0 < a + b) :
    (fed_core oc st n p T).st.g_virial =
      gvirial st.a_virial st.b_virial
        (Real.exp ((free_energy_density_virial oc.vs st.bn_params
          st.bpn_params n.n p.n n.m p.m T).mun / T))
        (Real.exp ((free_energy_density_virial oc.vs st.bn_params
          st.bpn_params n.n p.n n.m p.m T).mup / T)) ∧
    (∀ zn zp : ℝ, 0 ≤ zn → 0 ≤ zp →
      0 < gvirial a b zn zp ∧ gvirial a b zn zp ≤ 1) ∧
    Tendsto (fun q : ℝ × ℝ => gvirial a b q.1 q.2) (nhds (0, 0)) (nhds 1) ∧
    Tendsto (fun q : ℝ × ℝ => gvirial a b q.1 q.2)
      (atTop ×ˢ atTop) (nhds 0) := by
  have h1div : ∀ x : ℝ, (1.0:ℝ) / x = x⁻¹ := fun x => by norm_num
  refine ⟨rfl, ?_, ?_, ?_⟩
  · intro zn zp h1 h2
    have t1 : 0 ≤ a * zn * zn := mul_nonneg (mul_nonneg ha h1) h1
    have t2 : 0 ≤ a * zp * zp := mul_nonneg (mul_nonneg ha h2) h2
    have t3 : 0 ≤ b * zn * zp := mul_nonneg (mul_nonneg hb h1) h2
    have hden : (0:ℝ) < a * zn * zn + a * zp * zp + b * zn * zp + 1.0 := by
      norm_num only
      linarith
    constructor
    · rw [gvirial]
      exact div_pos (by norm_num) hden
    · rw [gvirial, div_le_one hden]
      norm_num only
      linarith
  · have hc : Continuous fun q : ℝ × ℝ =>
        a * q.1 * q.1 + a * q.2 * q.2 + b * q.1 * q.2 + 1.0 := by
      continuity
    have hD : Tendsto (fun q : ℝ × ℝ =>
        a * q.1 * q.1 + a * q.2 * q.2 + b * q.1 * q.2 + 1.0)
        (nhds ((0:ℝ), (0:ℝ))) (nhds 1) := by
      have h0 := hc.tendsto (0, 0)
      convert h0 using 2
      norm_num
    have hinv := hD.inv₀ (by norm_num)
    simp only [gvirial, h1div]
    convert hinv using 2
    norm_num
  · have hD : Tendsto (fun q : ℝ × ℝ =>
        a * q.1 * q.1 + a * q.2 * q.2 + b * q.1 * q.2 + 1.0)
        (atTop ×ˢ atTop) atTop := by
      have hzn : ∀ᶠ q : ℝ × ℝ in atTop ×ˢ atTop, (1:ℝ) ≤ q.1 :=
        (eventually_ge_atTop (1:ℝ)).prod_inl atTop
      have hzp : ∀ᶠ q : ℝ × ℝ in atTop ×ˢ atTop, (1:ℝ) ≤ q.2 :=
        (eventually_ge_atTop (1:ℝ)).prod_inr atTop
      rcases lt_or_eq_of_le ha with ha' | ha'
      · have hgrow : Tendsto (fun q : ℝ × ℝ => a * q.1 * q.1 + 1.0)
            (atTop ×ˢ atTop) atTop := by
          have hsq : Tendsto (fun q : ℝ × ℝ => q.1 * q.1)
              (atTop ×ˢ atTop) atTop :=
            Tendsto.atTop_mul_atTop tendsto_fst tendsto_fst
          have := tendsto_atTop_add_const_right (atTop ×ˢ atTop) (1.0:ℝ)
            (hsq.const_mul_atTop ha')
          simpa [mul_assoc] using this
        refine tendsto_atTop_mono' _ ?_ hgrow
        filter_upwards [hzn, hzp] with q h1q h2q
        have t1 : 0 ≤ a * q.2 * q.2 :=
          mul_nonneg (mul_nonneg ha (by linarith)) (by linarith)
        have t2 : 0 ≤ b * q.1 * q.2 :=
          mul_nonneg (mul_nonneg hb (by linarith)) (by linarith)
        linarith
      · have hb' : 0 < b := by linarith
        subst ha'
        have hgrow : Tendsto (fun q : ℝ × ℝ => b * (q.1 * q.2) + 1.0)
            (atTop ×ˢ atTop) atTop := by
          have hsq : Tendsto (fun q : ℝ × ℝ => q.1 * q.2)
              (atTop ×ˢ atTop) atTop :=
            Tendsto.atTop_mul_atTop tendsto_fst tendsto_snd
          exact tendsto_atTop_add_const_right _ _
            (hsq.const_mul_atTop hb')
        refine tendsto_atTop_mono' _ ?_ hgrow
        filter_upwards [hzn, hzp] with q h1q h2q
        have t2 : 0 ≤ b * q.1 * q.2 :=
          mul_nonneg (mul_nonneg hb (by linarith)) (by linarith)
        nlinarith
    have hinv := hD.inv_tendsto_atTop
    simp only [gvirial, h1div]
    exact hinv

open Filter in
/-- Witness for C8 at the default modulation coefficients a = 3, b = 0. -/
theorem C8_gvirial_weight_witness :
    Tendsto (fun q : ℝ × ℝ => gvirial 3 0 q.1 q.2)
      (atTop ×ˢ atTop) (nhds 0) :=
  (C8_gvirial_weight zeroOracles selectedState wN wP 1 3 0 (by norm_num)
    (by norm_num) (by norm_num)).2.2.2

/-- C5: with the sound-speed-minimum check passing, an (S, L) pair outside
the corridor 9.17 S - 266 <= L <= 14.3 S - 379 makes `select_internal`
return reason code 2 with `model_selected` false on return, regardless of
its value before the call. -/
theorem C5_corridor_rejection
    (orc : SelOracles) (st : EosState) (nmass pmass : ℝ)
    (i_ns_loc i_skyrme_loc : ℤ)
    (qmc_alpha_loc qmc_a_loc eos_L_loc eos_S_loc phi_loc : ℝ)
    (hcs2 : ¬ (min_max_cs2 st.old_ns_fit (orc.ns_fit i_ns_loc).1
      (orc.ns_fit i_ns_loc).2).1 < 0.0)
    (hout : ¬ (9.17 * eos_S_loc - 266.0 ≤ eos_L_loc ∧
      eos_L_loc ≤ 14.3 * eos_S_loc - 379.0)) :
    ∃ st2 : EosState,
      select_internal orc st nmass pmass i_ns_loc i_skyrme_loc
        qmc_alpha_loc qmc_a_loc eos_L_loc eos_S_loc phi_loc =
        SelectResult.ret 2 st2 ∧ st2.model_selected = false := by
  have hcond : 9.17 * eos_S_loc - 266.0 > eos_L_loc ∨
      14.3 * eos_S_loc - 379.0 < eos_L_loc := by
    by_contra hc
    push_neg at hc
    exact hout ⟨hc.1, hc.2⟩
  simp only [select_internal]
  rw [if_neg hcs2, if_pos hcond]
  exact ⟨_, rfl, rfl⟩

/-- On a freshly fitted candidate with zero fit parameters and a cutoff
below the grid start, the scanned sound-speed extrema are zero. -/
lemma min_max_cs2_zeroW :
    min_max_cs2 defaultState.old_ns_fit (selOrcW.ns_fit 0).1
      (selOrcW.ns_fit 0).2 = (0, 0) := by
  have hceil : (⌈(-1:ℝ)⌉₊ : ℕ) = 0 := by
    rw [Nat.ceil_eq_zero]
    norm_num
  rw [min_max_cs2, min_max_cs2_grid]
  norm_num [selOrcW, hceil, defaultState, cs2_fit, dmudn_fit, mu_fit]

/-- Witness for C5 at the concrete rejection scenario S = 30, L = 100. -/
theorem C5_corridor_rejection_witness :
    ∃ st2 : EosState,
      select_internal selOrcW defaultState 4.8 4.8 0 0 0.5 13 100 30 0 =
        SelectResult.ret 2 st2 ∧ st2.model_selected = false :=
  C5_corridor_rejection selOrcW defaultState 4.8 4.8 0 0 0.5 13 100 30 0
    (by rw [min_max_cs2_zeroW]; norm_num) (by norm_num)

/-- The dineutron scan reports no failure when the energy is nonnegative at
every grid point. -/
lemma dineutron_scan_eq_false (ce : ℝ → ℝ → ℝ) (l : List ℝ)
    (h : ∀ nb ∈ l, ¬ ce nb 0.0 / nb < 0.0) :
    dineutron_scan ce l = false := by
  induction l with
  | nil => rw [dineutron_scan]
  | cons x rest ih =>
    rw [dineutron_scan, if_neg (h x (List.mem_cons_self x rest))]
    exact ih (fun nb hnb => h nb (List.mem_cons_of_mem x hnb))

/-- The beta-equilibrium scan reports no failure when every solve converges
with Ye in range. -/
lemma beta_eq_scan_eq_none (bs : ℝ → ℤ × ℝ) (l : List ℝ)
    (h : ∀ x ∈ l, (bs x).1 = 0 ∧ ¬ ((bs x).2 < 0.0 ∨ (bs x).2 > 1.0)) :
    beta_eq_scan bs l = none := by
  induction l with
  | nil => rw [beta_eq_scan]
  | cons x rest ih =>
    have hx := h x (List.mem_cons_self x rest)
    simp only [beta_eq_scan]
    rw [if_neg (by simp [hx.1]), if_neg hx.2]
    exact ih (fun y hy => h y (List.mem_cons_of_mem x hy))

/-- The beta-equilibrium scan only ever reports codes 8 or 9. -/
lemma beta_eq_scan_codes (bs : ℝ → ℤ × ℝ) (l : List ℝ) (code : ℤ)
    (h : beta_eq_scan bs l = some code) : code = 8 ∨ code = 9 := by
  induction l with
  | nil => simp [beta_eq_scan] at h
  | cons x rest ih =>
    simp only [beta_eq_scan] at h
    split at h
    · exact Or.inl (Option.some.inj h).symm
    · split at h
      · exact Or.inr (Option.some.inj h).symm
      · exact ih h

/-- With the concrete oracle `selOrcW` the beta-equilibrium scan passes. -/
lemma beta_eq_scan_noneW :
    beta_eq_scan selOrcW.beta_solve beta_grid = none := by
  refine beta_eq_scan_eq_none _ _ ?_
  intro x hx
  constructor
  · rfl
  · norm_num [selOrcW]

/-- With the concrete oracle `selOrcW` the dineutron scan passes. -/
lemma dineutron_scan_falseW :
    dineutron_scan selOrcW.sk_calc_e dineutron_grid = false := by
  refine dineutron_scan_eq_false _ _ ?_
  intro nb hnb
  rw [dineutron_grid] at hnb
  obtain ⟨i, -, rfl⟩ := List.mem_map.mp hnb
  have hi : (0:ℝ) ≤ (i:ℝ) := Nat.cast_nonneg i
  have hpos : (0:ℝ) < 0.01 + 0.001 * (i:ℝ) := by nlinarith
  have h1 : (0:ℝ) < selOrcW.sk_calc_e (0.01 + 0.001 * (i:ℝ)) 0.0 /
      (0.01 + 0.001 * (i:ℝ)) :=
    div_pos (by norm_num [selOrcW]) hpos
  intro hcon
  linarith

/-- With the concrete oracle `selOrcW` the whole validation pipeline passes
and the model is accepted. -/
lemma selOrcW_accepts_eq :
    select_internal selOrcW defaultState 4.8 4.8 0 0 0.5 13 50 32 0 =
      SelectResult.ret 0 stWfinal := by
  have htt : defaultState.select_cs2_test = true := rfl
  have hnf : ¬ cs2_test_fails selOrcW.cs2_fixYe := by
    rintro ⟨nbx, -, yex, -, Tx, -, hlt⟩
    norm_num [selOrcW] at hlt
  simp only [select_internal]
  split
  · rename_i h1
    exact absurd h1 (by rw [min_max_cs2_zeroW]; norm_num)
  split
  · rename_i h2
    exact absurd h2 (by norm_num)
  split
  · rename_i h3
    exact absurd h3 (by norm_num [selOrcW])
  split
  · rename_i h4
    exact absurd h4 (by rw [dineutron_scan_falseW]; simp)
  split
  · rename_i h5
    exact absurd h5 (by norm_num [selOrcW])
  split
  · rename_i h6
    exact absurd h6 (by norm_num [selOrcW])
  split
  · rename_i h7
    exact absurd h7 (by norm_num [selOrcW])
  split
  · rename_i code heq
    rw [beta_eq_scan_noneW] at heq
    exact Option.noConfusion heq
  · rfl

/-- The accepted run exists with the model marked selected. -/
lemma selOrcW_accepts :
    ∃ st2 : EosState,
      select_internal selOrcW defaultState 4.8 4.8 0 0 0.5 13 50 32 0 =
        SelectResult.ret 0 st2 ∧ st2.model_selected = true :=
  ⟨stWfinal, selOrcW_accepts_eq, rfl⟩

/-- C6 counterexample: a parameter set on which `select_internal` succeeds
(reason code 0, model selected) although the probed squared sound speed is
1.5 at the grid point (nb, Ye, T) = (0.1, 0.05, 1 MeV), outside [0, 1): the
validator only tests cs2 < 0 and never rejects superluminal values. -/
theorem C6_superluminal_accepted_counterexample :
    (∃ st2 : EosState,
      select_internal selOrcW defaultState 4.8 4.8 0 0 0.5 13 50 32 0 =
        SelectResult.ret 0 st2 ∧ st2.model_selected = true) ∧
    (0.1:ℝ) ∈ nb_grid ∧ (0.05:ℝ) ∈ ye_grid ∧
    (1.0:ℝ) / hc_mev_fm ∈ T_grid ∧
    selOrcW.cs2_fixYe (0.1 * (1.0 - 0.05)) (0.1 * 0.05)
      (1.0 / hc_mev_fm) = 1.5 ∧
    ¬ ((1.5:ℝ) < 1) := by
  refine ⟨selOrcW_accepts, ?_, ?_, ?_, rfl, by norm_num⟩
  · rw [nb_grid]
    refine List.mem_map.mpr ⟨0, ?_, ?_⟩
    · simp
    · norm_num
  · rw [ye_grid]
    refine List.mem_map.mpr ⟨0, ?_, ?_⟩
    · simp
    · norm_num
  · rw [T_grid]
    refine List.mem_map.mpr ⟨0, ?_, ?_⟩
    · simp
    · norm_num

/-- C6 (amended): when the optional cs2 test is enabled, acceptance by
`select_internal` (reason code 0) guarantees that the squared sound speed is
nonnegative at every probed grid point; the test does not bound cs2 above,
so acceptance does not place cs2 inside [0, 1). -/
theorem C6_accepted_grid_cs2_nonneg
    (orc : SelOracles) (st : EosState) (nmass pmass : ℝ)
    (i_ns_loc i_skyrme_loc : ℤ)
    (qmc_alpha_loc qmc_a_loc eos_L_loc eos_S_loc phi_loc : ℝ)
    (st2 : EosState)
    (htest : st.select_cs2_test = true)
    (hacc : select_internal orc st nmass pmass i_ns_loc i_skyrme_loc
      qmc_alpha_loc qmc_a_loc eos_L_loc eos_S_loc phi_loc =
      SelectResult.ret 0 st2) :
    ∀ nbx ∈ nb_grid, ∀ yex ∈ ye_grid, ∀ Tx ∈ T_grid,
      0 ≤ orc.cs2_fixYe (nbx * (1 - yex)) (nbx * yex) Tx := by
  simp only [select_internal] at hacc
  split at hacc
  · simp at hacc
  split at hacc
  · simp at hacc
  split at hacc
  · simp at hacc
  split at hacc
  · simp at hacc
  split at hacc
  · simp at hacc
  split at hacc
  · simp at hacc
  split at hacc
  · simp at hacc
  split at hacc
  · rename_i code heq
    rcases beta_eq_scan_codes orc.beta_solve beta_grid code heq with h | h <;>
      subst h <;> simp at hacc
  · by_cases hf : cs2_test_fails orc.cs2_fixYe
    · rw [if_pos hf] at hacc
      exact SelectResult.noConfusion hacc
    · intro nbx hnb yex hye Tx hT
      rw [cs2_test_fails] at hf
      push_neg at hf
      have h0 := hf nbx hnb yex hye Tx hT
      norm_num at h0
      exact h0

/-- Witness for C6 at the concrete accepted instance. -/
theorem C6_accepted_grid_cs2_nonneg_witness :
    0 ≤ selOrcW.cs2_fixYe (0.1 * (1 - 0.05)) (0.1 * 0.05)
      (1.0 / hc_mev_fm) := by
  obtain ⟨st2, heq, -⟩ := selOrcW_accepts
  refine C6_accepted_grid_cs2_nonneg selOrcW defaultState 4.8 4.8 0 0 0.5
    13 50 32 0 st2 rfl heq 0.1 ?_ 0.05 ?_ (1.0 / hc_mev_fm) ?_
  · rw [nb_grid]
    refine List.mem_map.mpr ⟨0, ?_, ?_⟩
    · simp
    · norm_num
  · rw [ye_grid]
    refine List.mem_map.mpr ⟨0, ?_, ?_⟩
    · simp
    · norm_num
  · rw [T_grid]
    refine List.mem_map.mpr ⟨0, ?_, ?_⟩
    · simp
    · norm_num

end

end Eos
